import Mathlib

/-! Verification of the TopoConvert repository against its natural-language
specification.  Each definition below is a shallow embedding of a function
from the Python source tree (file and line references in the doc comments);
machine floats are modelled exactly over `ℚ`, fallible code over `Except`,
and external-library stages (pyproj transforms, scipy interpolation,
morphological closing) appear as explicit parameters of the embedded
pipelines, so that every theorem speaks only about the repository's own
logic.
-/

namespace TopoConvert

/-- Source constant `M_TO_FT = 3.28084` (src/topoconvert/core/points.py line 20,
also core/mesh.py line 20, core/contours.py line 27, core/combined_dxf.py line 19). -/
def M_TO_FT : ℚ := 328084 / 100000

/-- Source constant `FT_TO_M = 0.3048` (src/topoconvert/core/points.py line 21,
core/mesh.py line 21). -/
def FT_TO_M : ℚ := 3048 / 10000

/-- The two elevation-unit declarations accepted throughout the code
(`elevation_units in ['meters', 'feet']`). -/
inductive ElevUnits where
  | meters
  | feet
  deriving DecidableEq, Repr

/-! C2: target-CRS selection -/

/-- Modelled from the spec: `get_target_crs` of `topoconvert.utils.projection`
is imported and called by `core/points.py` line 16/268 and
`core/combined_dxf.py` line 16/128, but the shipped `src/topoconvert/utils/projection.py`
holds only `NotImplementedError` placeholders and does not define it.
Spec §4.3: return the explicit EPSG if supplied; else, if the geographic flag
is set, WGS84 (EPSG 4326); else the auto-detected UTM CRS with
`zone = floor((lon + 180) / 6) + 1` and EPSG `32600 + zone` for latitude ≥ 0,
`32700 + zone` for latitude < 0. -/
def get_target_crs (targetEpsg : Option ℤ) (wgs84 : Bool) (sample : ℚ × ℚ) : ℤ :=
  match targetEpsg with
  | some e => e
  | none =>
      if wgs84 then 4326
      else
        let zone : ℤ := ⌊(sample.1 + 180) / 6⌋ + 1
        if sample.2 ≥ 0 then 32600 + zone else 32700 + zone

/-! C8: round-trip unit conversion -/

/-! C1: the registered kml-to-dxf-mesh command versus the core generate_mesh -/

/-- The parameter names of `generate_mesh` in src/topoconvert/core/mesh.py
lines 24-35 (the function has no `**kwargs` catch-all). -/
def generateMeshParamNames : List String :=
  ["input_file", "output_file", "elevation_units", "translate_to_origin",
   "use_reference_point", "layer_name", "mesh_color", "add_wireframe",
   "wireframe_color", "progress_callback"]

/-- The keyword-argument names supplied by the registered `kml-to-dxf-mesh`
command body when it calls `generate_mesh`
(src/topoconvert/commands/kml_to_mesh.py lines 53-66). -/
def kmlToDxfMeshCallKwargNames : List String :=
  ["input_file", "output_file", "elevation_units", "translate_to_origin",
   "use_reference_point", "layer_name", "mesh_color", "add_wireframe",
   "wireframe_color", "target_epsg", "wgs84", "progress_callback"]

/-- Python keyword-call semantics for a function without `**kwargs`: the call
binds successfully only when every supplied keyword names a declared
parameter; otherwise the interpreter raises `TypeError` before the body runs. -/
def pythonKeywordCallAccepted (params kwargs : List String) : Bool :=
  kwargs.all fun k => params.contains k

/-- The per-triangle edge collection of `_create_mesh_dxf`
(src/topoconvert/core/mesh.py lines 191-197): each triangle contributes its
three undirected edges as sorted index pairs. -/
def triangleEdges (s : ℕ × ℕ × ℕ) : List (ℕ × ℕ) :=
  [(min s.1 s.2.1, max s.1 s.2.1),
   (min s.2.1 s.2.2, max s.2.1 s.2.2),
   (min s.2.2 s.1, max s.2.2 s.1)]

/-- The de-duplicated wireframe edge set accumulated over all triangles
(`edge_set` in src/topoconvert/core/mesh.py lines 170-197). -/
def meshEdgeSet (simplices : List (ℕ × ℕ × ℕ)) : List (ℕ × ℕ) :=
  (simplices.flatMap triangleEdges).dedup

/-- One 3DFACE is emitted per Delaunay simplex
(src/topoconvert/core/mesh.py lines 172-188). -/
def meshFaceCount (simplices : List (ℕ × ℕ × ℕ)) : ℕ :=
  simplices.length

/-! C3: elevation written by csv-to-kml -/

/-- The coordinate triple written by `_create_placemark`
(src/topoconvert/core/csv_kml.py line 138): `<coordinates>{lon},{lat},{elev}</coordinates>`,
with the elevation value passed through unchanged. -/
def createPlacemarkCoords (lat lon elev : ℚ) : ℚ × ℚ × ℚ :=
  (lon, lat, elev)

/-- The per-row emission loop of `_process_csv_to_kml`
(src/topoconvert/core/csv_kml.py lines 214-229): each row carries
(lat, lon, elev); the elevation used is the row's value when the elevation
column exists, else 0; rows with latitude outside [-90, 90] or longitude
outside [-180, 180] are skipped; the declared elevation unit `units` flows
only into label text, never into the coordinate tuple. -/
def processCsvToKmlCoords (units : ElevUnits) (hasElevation : Bool)
    (rows : List (ℚ × ℚ × ℚ)) : List (ℚ × ℚ × ℚ) :=
  let _ := units
  rows.filterMap fun r =>
    let lat := r.1
    let lon := r.2.1
    let elev := if hasElevation then r.2.2 else 0
    if -90 ≤ lat ∧ lat ≤ 90 ∧ -180 ≤ lon ∧ lon ≤ 180 then
      some (createPlacemarkCoords lat lon elev)
    else
      none

/-- The spec's conversion rule for a KML coordinate elevation: feet inputs
are converted to meters (×0.3048), meters pass through. Stated from the
spec's words for comparison with the source behaviour. -/
def specKmlElevationMeters (units : ElevUnits) (elev : ℚ) : ℚ :=
  if units = ElevUnits.feet then elev * FT_TO_M else elev

/-! C4: kml-to-points csv, json, txt output -/

/-- Embedding of `_write_csv_points` (src/topoconvert/core/points.py lines 157-170): each
point (lon, lat, elev) is written as a row `lat,lon,elev_m`, the elevation
converted to meters when the declared unit is feet. -/
def writeCsvPoints (pts : List (ℚ × ℚ × ℚ)) (units : ElevUnits) :
    List (ℚ × ℚ × ℚ) :=
  pts.map fun p =>
    (p.2.1, p.1, if units = ElevUnits.feet then p.2.2 * FT_TO_M else p.2.2)

/-- One record of the JSON points array
(src/topoconvert/core/points.py lines 183-191). -/
structure JsonPointRecord where
  id : ℕ
  longitude : ℚ
  latitude : ℚ
  elevation : ℚ
  elevationUnits : ElevUnits
  deriving DecidableEq, Repr

/-- Embedding of `_write_json_points` (src/topoconvert/core/points.py lines 173-194): each
point is emitted with a 1-based id, its original longitude/latitude, and its
elevation UNCHANGED, tagged with the declared unit. -/
def writeJsonPoints (pts : List (ℚ × ℚ × ℚ)) (units : ElevUnits) :
    List JsonPointRecord :=
  pts.enum.map fun ip =>
    { id := ip.1 + 1
      longitude := ip.2.1
      latitude := ip.2.2.1
      elevation := ip.2.2.2
      elevationUnits := units }

/-- Embedding of `_write_txt_points` (src/topoconvert/core/points.py lines 197-208): each
point is listed as `i+1: lon, lat, elev` with the elevation unchanged. -/
def writeTxtPoints (pts : List (ℚ × ℚ × ℚ)) : List (ℕ × ℚ × ℚ × ℚ) :=
  pts.enum.map fun ip => (ip.1 + 1, ip.2.1, ip.2.2.1, ip.2.2.2)

/-! C5: exception routing of generate_contours -/

/-- The error kinds of `topoconvert.core.exceptions` that the contour
pipeline raises (the exceptions module itself sits outside `src/`; the kinds
and messages here are the ones raised at the call sites in
src/topoconvert/core/contours.py, each carrying its message string). -/
inductive TopoExc where
  | fileFormatError (msg : String)
  | processingError (msg : String)
  | contourGenerationError (msg : String)
  | valueError (msg : String)
  deriving DecidableEq, Repr

/-- Python `str(e)` on these exceptions: the carried message. -/
def excMessage : TopoExc → String
  | .fileFormatError m => m
  | .processingError m => m
  | .contourGenerationError m => m
  | .valueError m => m

/-- The interpolation stage of `_process_contours`
(src/topoconvert/core/contours.py lines 241-246): a failure of the external
`griddata` call is re-raised as `ContourGenerationError("Interpolation failed: …")`;
on success the rest of the pipeline (grid contouring, DXF writing — abstracted
here as `rest`) runs. -/
def processContoursPipeline (interpolation : Except String Unit)
    (rest : Except TopoExc Unit) : Except TopoExc Unit :=
  match interpolation with
  | .error e => .error (.contourGenerationError ("Interpolation failed: " ++ e))
  | .ok _ => rest

/-- Embedding of `generate_contours` (src/topoconvert/core/contours.py lines 30-90):
parameter validation raises `ValueError`; then `_process_contours` runs inside
`try/except Exception`, and ANY exception it raises — the
`ContourGenerationError` from the interpolation stage included — is replaced
by `ProcessingError("Contour generation failed: " + str(e))`. -/
def generateContours (elevationUnits : String) (contourInterval : ℚ)
    (gridResolution : ℤ) (labelHeight : ℚ)
    (interpolation : Except String Unit) (rest : Except TopoExc Unit) :
    Except TopoExc Unit :=
  if elevationUnits ≠ "meters" ∧ elevationUnits ≠ "feet" then
    .error (.valueError "elevation_units must be 'meters' or 'feet'")
  else if contourInterval ≤ 0 then
    .error (.valueError "contour_interval must be positive")
  else if gridResolution ≤ 0 then
    .error (.valueError "grid_resolution must be positive")
  else if labelHeight ≤ 0 then
    .error (.valueError "label_height must be positive")
  else
    match processContoursPipeline interpolation rest with
    | .error e =>
        .error (.processingError ("Contour generation failed: " ++ excMessage e))
    | .ok u => .ok u

/-- Whether a pipeline outcome is a raised `ContourGenerationError`. -/
def raisesContourGenerationError : Except TopoExc Unit → Bool
  | .error (.contourGenerationError _) => true
  | _ => false

/-! C6: contour levels -/

/-- Semantics of `numpy.arange(start, stop, step)` for a positive rational step: the
values `start + i*step` for `0 ≤ i < ceil((stop - start)/step)` (exact
arithmetic; the source computes this over machine floats). -/
def npArange (start stop step : ℚ) : List ℚ :=
  (List.range (⌈(stop - start) / step⌉.toNat)).map fun (i : ℕ) =>
    start + (i : ℚ) * step

/-- The contour levels of `_process_contours`
(src/topoconvert/core/contours.py lines 248-252):
`contour_start = floor(z_min/interval)*interval`,
`contour_end = ceil(z_max/interval)*interval`,
`levels = np.arange(contour_start, contour_end + interval, interval)`. -/
def contourLevels (zmin zmax interval : ℚ) : List ℚ :=
  npArange ((⌊zmin / interval⌋ : ℚ) * interval)
    ((⌈zmax / interval⌉ : ℚ) * interval + interval) interval

/-- The spec's description: the closed arithmetic sequence from `lo` to `hi`
inclusive, stepping by `step` (for `lo ≤ hi` both multiples of `step`).
Stated from the spec's words for comparison with the source computation. -/
def closedArithSeq (lo hi step : ℚ) : List ℚ :=
  (List.range (⌊(hi - lo) / step⌋.toNat + 1)).map fun (j : ℕ) =>
    lo + (j : ℚ) * step

/-! C7: multi-csv-to-dxf global-origin shift -/

/-- Python `min(l) if l else 0.0`
(src/topoconvert/core/combined_dxf.py lines 163-165). -/
def listMin : List ℚ → ℚ
  | [] => 0
  | x :: xs => xs.foldl min x

/-- The global-minimum shift of `_process_csv_merge`, embedded after the
external pyproj transform and feet conversion
(src/topoconvert/core/combined_dxf.py lines 159-206): `files` holds each
CSV's transformed (x, y, z) rows, and the minimum x, y, z over all files
combined is subtracted from every point of every file. -/
def shiftToGlobalMin (files : List (List (ℚ × ℚ × ℚ))) :
    List (List (ℚ × ℚ × ℚ)) :=
  files.map fun f => f.map fun p =>
    (p.1 - listMin (files.flatten.map fun q => q.1),
     p.2.1 - listMin (files.flatten.map fun q => q.2.1),
     p.2.2 - listMin (files.flatten.map fun q => q.2.2))

/-- The guards of `merge_csv_to_dxf` / `_process_csv_merge`
(src/topoconvert/core/combined_dxf.py lines 53-54 and 124-130): no file at
all raises `ValueError`; an empty first CSV raises `ProcessingError` (the CRS
sample point comes from its first row); otherwise the shifted per-file point
lists are produced. -/
def processCsvMerge (files : List (List (ℚ × ℚ × ℚ))) :
    Except TopoExc (List (List (ℚ × ℚ × ℚ))) :=
  match files with
  | [] => .error (.valueError "At least one CSV file is required")
  | f0 :: rest =>
      if f0.isEmpty then
        .error (.processingError "No valid coordinates found in first CSV file")
      else
        .ok (shiftToGlobalMin (f0 :: rest))

/-- Decidable equality on `Except` outcomes, for evaluating the merge on
concrete inputs. -/
instance exceptDecEq {ε α : Type} [DecidableEq ε] [DecidableEq α] :
    DecidableEq (Except ε α) := fun x y =>
  match x, y with
  | .ok a, .ok b =>
      if h : a = b then isTrue (by rw [h])
      else isFalse (by
        intro hc
        cases hc
        exact h rfl)
  | .error a, .error b =>
      if h : a = b then isTrue (by rw [h])
      else isFalse (by
        intro hc
        cases hc
        exact h rfl)
  | .ok _, .error _ => isFalse fun hc => Except.noConfusion hc
  | .error _, .ok _ => isFalse fun hc => Except.noConfusion hc

/-! C9: slope-computation mask closing and backfill -/

/-- Embedding of `np.any` over a square boolean grid. -/
def anyCell (n : ℕ) (g : Fin n → Fin n → Bool) : Bool :=
  decide (∃ i j, g i j = true)

/-- Embedding of `holes_filled = mask_closed & ~mask`
(src/topoconvert/core/slope_heatmap.py line 150). -/
def maskHoles (n : ℕ) (mask maskClosed : Fin n → Fin n → Bool) :
    Fin n → Fin n → Bool :=
  fun i j => maskClosed i j && !(mask i j)

/-- The mask-closing backfill step of `compute_slope_from_points`
(src/topoconvert/core/slope_heatmap.py lines 139-155). `mask` is the validity
mask of the interpolated elevation grid `elev`; `maskClosed` is the output of
the external `scipy.ndimage.binary_closing` call on `mask`; `nearestFill` is
the external nearest-neighbor interpolation used to backfill. When some cell
is valid, holes newly marked valid by the closing are filled from
`nearestFill` and the mask is replaced by the closed mask; with no holes (or
no valid cell at all) both grid and mask are left untouched. Returns the
updated (elevation grid, validity mask). -/
def maskBackfill (n : ℕ) (elev : Fin n → Fin n → ℚ)
    (mask maskClosed : Fin n → Fin n → Bool)
    (nearestFill : Fin n → Fin n → ℚ) :
    (Fin n → Fin n → ℚ) × (Fin n → Fin n → Bool) :=
  if anyCell n mask then
    if anyCell n (maskHoles n mask maskClosed) then
      (fun i j => if maskHoles n mask maskClosed i j then nearestFill i j
        else elev i j,
       maskClosed)
    else (elev, mask)
  else (elev, mask)

/-! C10: contour path splitting -/

/-- Consecutive points within the gap threshold: squared Euclidean distance
at most `maxGap²`, which for `maxGap ≥ 0` is exactly the source's
`math.hypot(x1-x0, y1-y0) <= max_gap`
(src/topoconvert/core/contours.py lines 137-141). -/
def gapCondition (p q : ℚ × ℚ) (maxGap : ℚ) : Prop :=
  (q.1 - p.1)^2 + (q.2 - p.2)^2 ≤ maxGap^2

instance (p q : ℚ × ℚ) (maxGap : ℚ) : Decidable (gapCondition p q maxGap) :=
  inferInstanceAs (Decidable ((q.1 - p.1)^2 + (q.2 - p.2)^2 ≤ maxGap^2))

/-- Boolean form of the gap comparison used by the splitting loop. -/
def gapWithin (p q : ℚ × ℚ) (maxGap : ℚ) : Bool :=
  decide (gapCondition p q maxGap)

/-- The scanning loop of `_split_path_on_jumps`
(src/topoconvert/core/contours.py lines 133-150): `current` is the sub-path
accumulated so far in reverse order (ending at `prev`, the previously visited
point); a point within the gap threshold of `prev` extends `current`,
otherwise `current` is flushed and a new sub-path starts; the trailing
`current` is always flushed at the end. -/
def splitLoop (maxGap : ℚ) (current : List (ℚ × ℚ)) (prev : ℚ × ℚ) :
    List (ℚ × ℚ) → List (List (ℚ × ℚ))
  | [] => [current.reverse]
  | q :: rest =>
      if gapWithin prev q maxGap then splitLoop maxGap (q :: current) q rest
      else current.reverse :: splitLoop maxGap [q] q rest

/-- Embedding of `_split_path_on_jumps` (src/topoconvert/core/contours.py lines 127-150):
paths with fewer than 2 points are returned as a single sub-path; otherwise
the scan starts with `current = [points2d[0]]`. -/
def splitPathOnJumps (maxGap : ℚ) : List (ℚ × ℚ) → List (List (ℚ × ℚ))
  | [] => [[]]
  | [p] => [[p]]
  | p :: q :: rest => splitLoop maxGap [p] p (q :: rest)

end TopoConvert

namespace TopoConvert

/-- Claim C2: `get_target_crs` returns the explicit EPSG if supplied; else
EPSG 4326 when the geographic flag is set; else the auto-detected UTM EPSG
`32600 + zone` (lat ≥ 0) or `32700 + zone` (lat < 0) with
`zone = floor((lon + 180)/6) + 1`. -/
theorem get_target_crs_spec (targetEpsg : Option ℤ) (wgs84 : Bool) (lon lat : ℚ) :
    (∀ e : ℤ, targetEpsg = some e → get_target_crs targetEpsg wgs84 (lon, lat) = e) ∧
    (targetEpsg = none → wgs84 = true → get_target_crs targetEpsg wgs84 (lon, lat) = 4326) ∧
    (targetEpsg = none → wgs84 = false →
      get_target_crs targetEpsg wgs84 (lon, lat) =
        (if 0 ≤ lat then 32600 else 32700) + (⌊(lon + 180) / 6⌋ + 1)) := by
  refine ⟨?_, ?_, ?_⟩
  · intro e he
    subst he
    rfl
  · intro h hw
    subst h
    subst hw
    rfl
  · intro h hw
    subst h
    subst hw
    by_cases hlat : 0 ≤ lat
    · simp [get_target_crs, hlat]
    · simp [get_target_crs, hlat]

/-- Witness for C2 at the spec's own example points: an explicit EPSG wins;
(-122.4, 37.8) auto-detects zone 10 north, EPSG 32610; southern latitude
gives EPSG 32710. -/
theorem get_target_crs_spec_witness :
    get_target_crs (some 26914) false (-1224/10, 378/10) = 26914 ∧
    get_target_crs none true (-1224/10, 378/10) = 4326 ∧
    get_target_crs none false (-1224/10, 378/10) = 32610 ∧
    get_target_crs none false (-1224/10, -378/10) = 32710 := by
  refine ⟨(get_target_crs_spec (some 26914) false (-1224/10) (378/10)).1 26914 rfl,
    (get_target_crs_spec none true (-1224/10) (378/10)).2.1 rfl rfl, ?_, ?_⟩
  · rw [(get_target_crs_spec none false (-1224/10) (378/10)).2.2 rfl rfl]
    rw [if_pos (by norm_num), show ((-1224/10 : ℚ) + 180) / 6 = 48/5 by norm_num]
    norm_num
  · rw [(get_target_crs_spec none false (-1224/10) (-378/10)).2.2 rfl rfl]
    rw [if_neg (by norm_num), show ((-1224/10 : ℚ) + 180) / 6 = 48/5 by norm_num]
    norm_num

/-- Claim C8, counterexample: the claim asserts the feet→meters→feet round
trip lands within 1e-6 of the input for ANY elevation value, but
`0.3048 * 3.28084 = 1.000000032`, so the absolute error is `3.2e-8 · |e|`
and already exceeds 1e-6 at e = 1000 feet. -/
theorem roundtrip_counterexample :
    ¬ |(1000 : ℚ) * FT_TO_M * M_TO_FT - 1000| ≤ 1/1000000 := by
  rw [FT_TO_M, M_TO_FT]
  rw [show (1000 : ℚ) * (3048/10000) * (328084/100000) - 1000 = 32/1000000 by norm_num]
  rw [abs_of_nonneg (by norm_num)]
  norm_num

/-- Claim C8 as amended: the round trip `e * 0.3048 * 3.28084` differs from
`e` by exactly `3.2e-8 · |e|`, so it is within 1e-6 of `e` precisely when
`|e| ≤ 31.25` feet (in particular for all |e| up to 31.25). -/
theorem roundtrip_amended (e : ℚ) (h : |e| ≤ 125/4) :
    |e * FT_TO_M * M_TO_FT - e| = (32/1000000000) * |e| ∧
    |e * FT_TO_M * M_TO_FT - e| ≤ 1/1000000 := by
  have key : e * FT_TO_M * M_TO_FT - e = (32/1000000000) * e := by
    rw [FT_TO_M, M_TO_FT]
    ring
  constructor
  · rw [key, abs_mul, abs_of_nonneg (show (0:ℚ) ≤ 32/1000000000 by norm_num)]
  · rw [key, abs_mul, abs_of_nonneg (show (0:ℚ) ≤ 32/1000000000 by norm_num)]
    calc (32/1000000000 : ℚ) * |e| ≤ (32/1000000000) * (125/4) := by
          apply mul_le_mul_of_nonneg_left h (by norm_num)
      _ = 1/1000000 := by norm_num

/-- Witness for C8's amended theorem at e = 30 feet. -/
theorem roundtrip_amended_witness :
    |(30 : ℚ)| ≤ 125/4 ∧
    (|30 * FT_TO_M * M_TO_FT - 30| = (32/1000000000) * |(30 : ℚ)| ∧
     |(30 : ℚ) * FT_TO_M * M_TO_FT - 30| ≤ 1/1000000) :=
  ⟨by norm_num, roundtrip_amended 30 (by norm_num)⟩

/-- Claim C1: the registered `kml-to-dxf-mesh` command body passes keyword
arguments `target_epsg` and `wgs84` that `generate_mesh` does not declare, so
under Python call semantics every invocation of the command (default options
included) raises `TypeError` before any mesh is built, instead of succeeding.
The mesh-counting logic itself would give the claimed counts: one Delaunay
simplex yields 1 face and a de-duplicated wireframe edge set of size 3. -/
theorem kml_to_dxf_mesh_call_mismatch :
    pythonKeywordCallAccepted generateMeshParamNames kmlToDxfMeshCallKwargNames = false ∧
    "target_epsg" ∈ kmlToDxfMeshCallKwargNames ∧
    "target_epsg" ∉ generateMeshParamNames ∧
    "wgs84" ∈ kmlToDxfMeshCallKwargNames ∧
    "wgs84" ∉ generateMeshParamNames ∧
    meshFaceCount [(0, 1, 2)] = 1 ∧
    meshEdgeSet [(0, 1, 2)] = [(0, 1), (1, 2), (0, 2)] := by
  refine ⟨by decide, by decide, by decide, by decide, by decide, rfl, by decide⟩

/-- Claim C3, counterexample: for the row (lat 1, lon 2, elevation 10) with
declared unit feet, `csv-to-kml` writes elevation 10 into the coordinate
tuple, not the 10 × 0.3048 = 3.048 meters the claim requires. -/
theorem csv_to_kml_elevation_counterexample :
    processCsvToKmlCoords ElevUnits.feet true [(1, 2, 10)] = [(2, 1, 10)] ∧
    specKmlElevationMeters ElevUnits.feet 10 = 3048/1000 ∧
    (10 : ℚ) ≠ specKmlElevationMeters ElevUnits.feet 10 := by
  refine ⟨by decide, ?_, ?_⟩
  · rw [specKmlElevationMeters, if_pos rfl, FT_TO_M]
    norm_num
  · rw [specKmlElevationMeters, if_pos rfl, FT_TO_M]
    norm_num

/-- Claim C3 as amended: for every valid row converted by `csv-to-kml`, the
elevation written into the emitted KML coordinate tuple is the row's
elevation value unchanged (or 0 when the elevation column is absent),
regardless of the declared elevation unit, which affects only label text. -/
theorem csv_to_kml_elevation_amended (units units' : ElevUnits)
    (hasElevation : Bool) (rows : List (ℚ × ℚ × ℚ)) (p : ℚ × ℚ × ℚ)
    (hp : p ∈ processCsvToKmlCoords units hasElevation rows) :
    (∃ r ∈ rows,
        p = (r.2.1, r.1, if hasElevation then r.2.2 else 0)) ∧
    processCsvToKmlCoords units hasElevation rows =
      processCsvToKmlCoords units' hasElevation rows := by
  constructor
  · rw [processCsvToKmlCoords] at hp
    obtain ⟨r, hr, hval⟩ := List.mem_filterMap.mp hp
    refine ⟨r, hr, ?_⟩
    by_cases hcond : -90 ≤ r.1 ∧ r.1 ≤ 90 ∧ -180 ≤ r.2.1 ∧ r.2.1 ≤ 180
    · rw [if_pos hcond] at hval
      rw [createPlacemarkCoords] at hval
      exact (Option.some_inj.mp hval).symm
    · rw [if_neg hcond] at hval
      exact absurd hval (by simp)
  · rfl

/-- Witness for C3's amended theorem at a concrete valid feet-unit row. -/
theorem csv_to_kml_elevation_amended_witness :
    ((2 : ℚ), (1 : ℚ), (10 : ℚ)) ∈
      processCsvToKmlCoords ElevUnits.feet true [(1, 2, 10)] ∧
    ((∃ r ∈ [((1 : ℚ), (2 : ℚ), (10 : ℚ))],
        ((2 : ℚ), (1 : ℚ), (10 : ℚ)) = (r.2.1, r.1, if true then r.2.2 else 0)) ∧
     processCsvToKmlCoords ElevUnits.feet true [(1, 2, 10)] =
       processCsvToKmlCoords ElevUnits.meters true [(1, 2, 10)]) :=
  ⟨by decide,
   csv_to_kml_elevation_amended ElevUnits.feet ElevUnits.meters true
     [(1, 2, 10)] (2, 1, 10) (by decide)⟩

/-- Claim C4, counterexample: for the point (lon 1, lat 2, elevation 10) with
declared unit feet, the JSON writer emits elevation 10 unchanged (and the TXT
writer likewise), not the 3.048 meters the claim requires for all three
formats. -/
theorem kml_to_points_json_txt_counterexample :
    (writeJsonPoints [(1, 2, 10)] ElevUnits.feet).map JsonPointRecord.elevation
      = [10] ∧
    writeTxtPoints [(1, 2, 10)] = [(1, 1, 2, 10)] ∧
    (10 : ℚ) ≠ specKmlElevationMeters ElevUnits.feet 10 := by
  refine ⟨by decide, by decide, ?_⟩
  rw [specKmlElevationMeters, if_pos rfl, FT_TO_M]
  norm_num

/-- Claim C4 as amended: all three text formats write the original
unprojected WGS84 longitude/latitude; elevation is converted to meters in
the CSV format only, while the JSON and TXT formats write the source
elevation unchanged (tagged, in JSON, with the declared unit). -/
theorem kml_to_points_formats_amended (pts : List (ℚ × ℚ × ℚ))
    (units : ElevUnits) :
    writeCsvPoints pts units =
      pts.map (fun p => (p.2.1, p.1, specKmlElevationMeters units p.2.2)) ∧
    (writeJsonPoints pts units).map
        (fun r => (r.longitude, r.latitude, r.elevation)) = pts ∧
    (writeTxtPoints pts).map (fun r => r.2) = pts ∧
    (writeJsonPoints pts units).map JsonPointRecord.elevationUnits =
      List.replicate pts.length units := by
  refine ⟨?_, ?_, ?_, ?_⟩
  · rw [writeCsvPoints]
    apply List.map_congr_left
    intro p _
    rw [specKmlElevationMeters]
  · rw [writeJsonPoints, List.map_map]
    have : ((fun r : JsonPointRecord => (r.longitude, r.latitude, r.elevation)) ∘
        (fun ip : ℕ × ℚ × ℚ × ℚ =>
          ({ id := ip.1 + 1, longitude := ip.2.1, latitude := ip.2.2.1,
             elevation := ip.2.2.2, elevationUnits := units } : JsonPointRecord)))
        = Prod.snd := by
      funext ip
      rfl
    rw [this, List.enum_map_snd]
  · rw [writeTxtPoints, List.map_map]
    have : ((fun r : ℕ × ℚ × ℚ × ℚ => r.2) ∘
        (fun ip : ℕ × ℚ × ℚ × ℚ => (ip.1 + 1, ip.2.1, ip.2.2.1, ip.2.2.2)))
        = Prod.snd := by
      funext ip
      rfl
    rw [this, List.enum_map_snd]
  · rw [writeJsonPoints, List.map_map]
    have hconst : (JsonPointRecord.elevationUnits ∘
        (fun ip : ℕ × ℚ × ℚ × ℚ =>
          ({ id := ip.1 + 1, longitude := ip.2.1, latitude := ip.2.2.1,
             elevation := ip.2.2.2, elevationUnits := units } : JsonPointRecord)))
        = fun _ => units := by
      funext ip
      rfl
    rw [hconst, List.map_const', List.enum_length]

/-- Claim C5, counterexample: with valid parameters and a failing
interpolation stage, `generate_contours` yields `ProcessingError`, not the
`ContourGenerationError` the claim says its caller receives — the internal
`ContourGenerationError` is caught and re-wrapped by the
`except Exception` block of `generate_contours`. -/
theorem contour_exception_counterexample :
    generateContours "meters" 1 100 2 (.error "QhullError") (.ok ()) =
      .error (.processingError
        "Contour generation failed: Interpolation failed: QhullError") ∧
    raisesContourGenerationError
      (generateContours "meters" 1 100 2 (.error "QhullError") (.ok ())) = false := by
  exact ⟨rfl, rfl⟩

/-- Claim C5 as amended: when the interpolation step fails,
`_process_contours` raises `ContourGenerationError`, but `generate_contours`
catches every exception from the pipeline and re-raises
`ProcessingError("Contour generation failed: …")`; so its caller receives
`ProcessingError` for interpolation failures exactly as for any other
pipeline failure, and `ContourGenerationError` never escapes
`generate_contours`. -/
theorem contour_exception_amended (contourInterval : ℚ) (gridResolution : ℤ)
    (labelHeight : ℚ) (h1 : 0 < contourInterval) (h2 : 0 < gridResolution)
    (h3 : 0 < labelHeight) (msg : String) (rest : Except TopoExc Unit)
    (e : TopoExc) :
    (processContoursPipeline (.error msg) rest =
       .error (.contourGenerationError ("Interpolation failed: " ++ msg))) ∧
    (generateContours "meters" contourInterval gridResolution labelHeight
        (.error msg) rest =
      .error (.processingError
        ("Contour generation failed: Interpolation failed: " ++ msg))) ∧
    (rest = .error e →
      generateContours "meters" contourInterval gridResolution labelHeight
          (.ok ()) rest =
        .error (.processingError ("Contour generation failed: " ++ excMessage e))) := by
  have hu : ¬("meters" ≠ "meters" ∧ "meters" ≠ "feet") := by
    simp
  refine ⟨rfl, ?_, ?_⟩
  · rw [generateContours, if_neg hu, if_neg (not_le.mpr h1),
      if_neg (not_le.mpr h2), if_neg (not_le.mpr h3)]
    rfl
  · intro hrest
    subst hrest
    rw [generateContours, if_neg hu, if_neg (not_le.mpr h1),
      if_neg (not_le.mpr h2), if_neg (not_le.mpr h3)]
    rfl

/-- Witness for C5's amended theorem at concrete parameters and messages. -/
theorem contour_exception_amended_witness :
    (0 : ℚ) < 1 ∧ (0 : ℤ) < 100 ∧ (0 : ℚ) < 2 ∧
    ((processContoursPipeline (.error "QhullError")
        (.error (.fileFormatError "bad KML")) =
       .error (.contourGenerationError "Interpolation failed: QhullError")) ∧
     (generateContours "meters" 1 100 2 (.error "QhullError")
         (.error (.fileFormatError "bad KML")) =
       .error (.processingError
         "Contour generation failed: Interpolation failed: QhullError")) ∧
     ((Except.error (TopoExc.fileFormatError "bad KML") : Except TopoExc Unit) =
        Except.error (TopoExc.fileFormatError "bad KML") →
      generateContours "meters" 1 100 2 (.ok ())
          (.error (.fileFormatError "bad KML")) =
        .error (.processingError
          ("Contour generation failed: " ++ excMessage (.fileFormatError "bad KML"))))) :=
  ⟨by norm_num, by norm_num, by norm_num,
   contour_exception_amended 1 100 2 (by norm_num) (by norm_num) (by norm_num)
     "QhullError" (.error (.fileFormatError "bad KML")) (.fileFormatError "bad KML")⟩

/-- Claim C6: for a positive interval and translated elevations with minimum
`zmin` and maximum `zmax` (so `zmin ≤ zmax`), the levels computed by
`_process_contours` are exactly the closed arithmetic sequence from
`floor(zmin/interval)*interval` to `ceil(zmax/interval)*interval` inclusive,
stepping by `interval` — no level missing and none beyond the endpoints
(exact rational arithmetic). -/
theorem contour_levels_closed_sequence (zmin zmax interval : ℚ)
    (hpos : 0 < interval) (hle : zmin ≤ zmax) :
    contourLevels zmin zmax interval =
      closedArithSeq ((⌊zmin / interval⌋ : ℚ) * interval)
        ((⌈zmax / interval⌉ : ℚ) * interval) interval := by
  have hne : interval ≠ 0 := ne_of_gt hpos
  set a : ℤ := ⌊zmin / interval⌋ with ha
  set b : ℤ := ⌈zmax / interval⌉ with hb
  have hab : a ≤ b := by
    have hdiv : zmin / interval ≤ zmax / interval := by
      gcongr
    exact le_trans (Int.floor_le_floor hdiv) (Int.floor_le_ceil _)
  have h1 : ((b : ℚ) * interval + interval - (a : ℚ) * interval) / interval
      = ((b - a + 1 : ℤ) : ℚ) := by
    push_cast
    field_simp
    ring
  have h2 : ((b : ℚ) * interval - (a : ℚ) * interval) / interval
      = ((b - a : ℤ) : ℚ) := by
    push_cast
    field_simp
    ring
  rw [contourLevels, npArange, closedArithSeq, h1, h2, Int.ceil_intCast,
    Int.floor_intCast]
  have h3 : (b - a + 1).toNat = (b - a).toNat + 1 :=
    Int.toNat_add (by omega) (by norm_num)
  rw [h3]

/-- Witness for C6 at the spec's example: elevations spanning 12.3 to 47.8 ft
with interval 5.0 give levels 10, 15, …, 50. -/
theorem contour_levels_witness :
    (0 : ℚ) < 5 ∧ (123/10 : ℚ) ≤ 478/10 ∧
    contourLevels (123/10) (478/10) 5 =
      closedArithSeq ((⌊(123/10 : ℚ) / 5⌋ : ℚ) * 5)
        ((⌈(478/10 : ℚ) / 5⌉ : ℚ) * 5) 5 ∧
    contourLevels (123/10) (478/10) 5 = [10, 15, 20, 25, 30, 35, 40, 45, 50] := by
  refine ⟨by norm_num, by norm_num,
    contour_levels_closed_sequence (123/10) (478/10) 5 (by norm_num) (by norm_num),
    ?_⟩
  rw [contourLevels, npArange,
    show ⌊(123/10 : ℚ) / 5⌋ = 2 by norm_num,
    show ⌈(478/10 : ℚ) / 5⌉ = 10 by
      rw [Int.ceil_eq_iff]
      norm_num,
    show (((10 : ℤ) : ℚ) * 5 + 5 - ((2 : ℤ) : ℚ) * 5) / 5 = ((9 : ℤ) : ℚ) by
      push_cast
      norm_num,
    Int.ceil_intCast]
  rw [show Int.toNat 9 = 9 from rfl]
  simp only [List.range_succ, List.range_zero, List.map_append, List.map_cons,
    List.map_nil, List.nil_append, List.cons_append]
  norm_num

/-- Helper: a left fold of `min` is bounded by its initial value. -/
theorem foldl_min_le_init (zs : List ℚ) : ∀ b : ℚ, zs.foldl min b ≤ b := by
  induction zs with
  | nil => intro b; exact le_refl b
  | cons z zs ih =>
      intro b
      calc (z :: zs).foldl min b = zs.foldl min (min b z) := rfl
        _ ≤ min b z := ih (min b z)
        _ ≤ b := min_le_left b z

/-- Helper: a left fold of `min` is a lower bound for every folded element. -/
theorem foldl_min_le_mem (zs : List ℚ) :
    ∀ b x : ℚ, x ∈ zs → zs.foldl min b ≤ x := by
  induction zs with
  | nil => intro b x hx; exact absurd hx (List.not_mem_nil x)
  | cons z zs ih =>
      intro b x hx
      rcases List.mem_cons.mp hx with hx | hx
      · subst hx
        calc (x :: zs).foldl min b = zs.foldl min (min b x) := rfl
          _ ≤ min b x := foldl_min_le_init zs (min b x)
          _ ≤ x := min_le_right b x
      · exact ih (min b z) x hx

/-- Helper: a left fold of `min` returns the initial value or a list element. -/
theorem foldl_min_mem (zs : List ℚ) :
    ∀ b : ℚ, zs.foldl min b = b ∨ zs.foldl min b ∈ zs := by
  induction zs with
  | nil => intro b; exact Or.inl rfl
  | cons z zs ih =>
      intro b
      rcases ih (min b z) with h | h
      · rcases min_choice b z with hm | hm
        · exact Or.inl (by rw [show (z :: zs).foldl min b = zs.foldl min (min b z) from rfl, h, hm])
        · refine Or.inr (List.mem_cons.mpr (Or.inl ?_))
          rw [show (z :: zs).foldl min b = zs.foldl min (min b z) from rfl, h, hm]
      · exact Or.inr (List.mem_cons.mpr (Or.inr h))

/-- Helper: `listMin` is a lower bound for the list's elements. -/
theorem listMin_le (l : List ℚ) (x : ℚ) (hx : x ∈ l) : listMin l ≤ x := by
  cases l with
  | nil => exact absurd hx (List.not_mem_nil x)
  | cons y ys =>
      rcases List.mem_cons.mp hx with h | h
      · subst h
        exact foldl_min_le_init ys x
      · exact foldl_min_le_mem ys y x h

/-- Helper: `listMin` of a non-empty list is one of its elements. -/
theorem listMin_mem (l : List ℚ) (hl : l ≠ []) : listMin l ∈ l := by
  cases l with
  | nil => exact absurd rfl hl
  | cons y ys =>
      rcases foldl_min_mem ys y with h | h
      · rw [listMin, h]
        exact List.mem_cons_self y ys
      · rw [listMin]
        exact List.mem_cons.mpr (Or.inr h)

/-- Claim C7: whenever `_process_csv_merge` succeeds, every emitted point of
the merged output is ≥ 0 in x, y, and z after the shift by the global minimum
corner, and in each of the three axes some emitted point is exactly 0. -/
theorem shift_to_global_min_bounds (files : List (List (ℚ × ℚ × ℚ)))
    (hne : files.flatten ≠ []) :
    (∀ p ∈ (shiftToGlobalMin files).flatten, 0 ≤ p.1 ∧ 0 ≤ p.2.1 ∧ 0 ≤ p.2.2) ∧
    (∃ p ∈ (shiftToGlobalMin files).flatten, p.1 = 0) ∧
    (∃ p ∈ (shiftToGlobalMin files).flatten, p.2.1 = 0) ∧
    (∃ p ∈ (shiftToGlobalMin files).flatten, p.2.2 = 0) := by
  have hflat : (shiftToGlobalMin files).flatten =
      files.flatten.map fun p =>
        (p.1 - listMin (files.flatten.map fun q => q.1),
         p.2.1 - listMin (files.flatten.map fun q => q.2.1),
         p.2.2 - listMin (files.flatten.map fun q => q.2.2)) := by
    rw [shiftToGlobalMin]
    exact (List.map_flatten _ _).symm
  constructor
  · intro p hp
    rw [hflat] at hp
    obtain ⟨q, hq, hpq⟩ := List.mem_map.mp hp
    subst hpq
    refine ⟨?_, ?_, ?_⟩
    · have := listMin_le (files.flatten.map fun r => r.1) q.1
        (List.mem_map.mpr ⟨q, hq, rfl⟩)
      simpa using this
    · have := listMin_le (files.flatten.map fun r => r.2.1) q.2.1
        (List.mem_map.mpr ⟨q, hq, rfl⟩)
      simpa using this
    · have := listMin_le (files.flatten.map fun r => r.2.2) q.2.2
        (List.mem_map.mpr ⟨q, hq, rfl⟩)
      simpa using this
  · have hmem : ∀ f : (ℚ × ℚ × ℚ) → ℚ,
        listMin (files.flatten.map f) ∈ files.flatten.map f := fun f =>
      listMin_mem _ fun hcon => hne (List.map_eq_nil_iff.mp hcon)
    refine ⟨?_, ?_, ?_⟩
    · obtain ⟨q, hq, hqv⟩ := List.mem_map.mp (hmem fun r => r.1)
      refine ⟨_, by
        rw [hflat]
        exact List.mem_map.mpr ⟨q, hq, rfl⟩, by
        simp [hqv]⟩
    · obtain ⟨q, hq, hqv⟩ := List.mem_map.mp (hmem fun r => r.2.1)
      refine ⟨_, by
        rw [hflat]
        exact List.mem_map.mpr ⟨q, hq, rfl⟩, by
        simp [hqv]⟩
    · obtain ⟨q, hq, hqv⟩ := List.mem_map.mp (hmem fun r => r.2.2)
      refine ⟨_, by
        rw [hflat]
        exact List.mem_map.mpr ⟨q, hq, rfl⟩, by
        simp [hqv]⟩

/-- Claim C7: whenever `_process_csv_merge` succeeds, every emitted point of
the merged output is ≥ 0 in x, y, and z after the shift by the global minimum
corner (min over all files combined), and in each of the three axes some
emitted point is exactly 0. -/
theorem merge_global_origin (files : List (List (ℚ × ℚ × ℚ)))
    (out : List (List (ℚ × ℚ × ℚ))) (hok : processCsvMerge files = .ok out) :
    (∀ p ∈ out.flatten, 0 ≤ p.1 ∧ 0 ≤ p.2.1 ∧ 0 ≤ p.2.2) ∧
    (∃ p ∈ out.flatten, p.1 = 0) ∧
    (∃ p ∈ out.flatten, p.2.1 = 0) ∧
    (∃ p ∈ out.flatten, p.2.2 = 0) := by
  match files with
  | [] =>
      rw [processCsvMerge] at hok
      exact absurd hok fun h => Except.noConfusion h
  | f0 :: rest =>
      rw [processCsvMerge] at hok
      by_cases h0 : f0.isEmpty
      · rw [if_pos h0] at hok
        exact absurd hok fun h => Except.noConfusion h
      · rw [if_neg h0] at hok
        have hout : out = shiftToGlobalMin (f0 :: rest) := (Except.ok.inj hok).symm
        have hne : (f0 :: rest).flatten ≠ [] := by
          simp only [List.flatten_cons]
          intro hcon
          rw [(List.append_eq_nil.mp hcon).1] at h0
          exact h0 rfl
        rw [hout]
        exact shift_to_global_min_bounds (f0 :: rest) hne

/-- Witness for C7 on two concrete transformed CSVs. -/
theorem merge_global_origin_witness :
    processCsvMerge [[(1, 2, 3), (0, 5, 4)], [(2, 0, 0)]] =
      .ok [[(1, 2, 3), (0, 5, 4)], [(2, 0, 0)]] ∧
    ((∀ p ∈ ([[(1, 2, 3), (0, 5, 4)], [((2 : ℚ), (0 : ℚ), (0 : ℚ))]] :
          List (List (ℚ × ℚ × ℚ))).flatten,
        0 ≤ p.1 ∧ 0 ≤ p.2.1 ∧ 0 ≤ p.2.2) ∧
     (∃ p ∈ ([[(1, 2, 3), (0, 5, 4)], [((2 : ℚ), (0 : ℚ), (0 : ℚ))]] :
          List (List (ℚ × ℚ × ℚ))).flatten, p.1 = 0) ∧
     (∃ p ∈ ([[(1, 2, 3), (0, 5, 4)], [((2 : ℚ), (0 : ℚ), (0 : ℚ))]] :
          List (List (ℚ × ℚ × ℚ))).flatten, p.2.1 = 0) ∧
     (∃ p ∈ ([[(1, 2, 3), (0, 5, 4)], [((2 : ℚ), (0 : ℚ), (0 : ℚ))]] :
          List (List (ℚ × ℚ × ℚ))).flatten, p.2.2 = 0)) := by
  have hok : processCsvMerge [[(1, 2, 3), (0, 5, 4)], [(2, 0, 0)]] =
      .ok [[(1, 2, 3), (0, 5, 4)], [(2, 0, 0)]] := by
    norm_num [processCsvMerge, shiftToGlobalMin, listMin, min_def]
  exact ⟨hok, merge_global_origin _ _ hok⟩

/-- Claim C9: the mask-closing backfill of `compute_slope_from_points`
writes elevation only into grid cells newly marked valid by the morphological
closing. Assuming closing is extensive on the running mask (every valid cell
stays valid — the defining property of a morphological closing) and at least
one cell is valid (so the closing branch runs at all): every cell valid
before the closing keeps its interpolated elevation unchanged, the resulting
validity mask equals the closed mask, and any cell whose elevation was
rewritten is one the closing newly marked valid. -/
theorem slope_mask_backfill_frame (n : ℕ) (elev : Fin n → Fin n → ℚ)
    (mask maskClosed : Fin n → Fin n → Bool)
    (nearestFill : Fin n → Fin n → ℚ)
    (hsome : anyCell n mask = true)
    (hext : ∀ i j, mask i j = true → maskClosed i j = true) :
    (maskBackfill n elev mask maskClosed nearestFill).2 = maskClosed ∧
    (∀ i j, mask i j = true →
      (maskBackfill n elev mask maskClosed nearestFill).1 i j = elev i j) ∧
    (∀ i j, (maskBackfill n elev mask maskClosed nearestFill).1 i j ≠ elev i j →
      maskClosed i j = true ∧ mask i j = false) := by
  rw [maskBackfill, if_pos hsome]
  by_cases hh : anyCell n (maskHoles n mask maskClosed) = true
  · rw [if_pos hh]
    refine ⟨rfl, ?_, ?_⟩
    · intro i j hm
      have hhole : maskHoles n mask maskClosed i j = false := by
        rw [maskHoles, hm]
        simp
      simp only [hhole, Bool.false_eq_true, if_false]
    · intro i j hch
      by_cases hhole : maskHoles n mask maskClosed i j = true
      · rw [maskHoles, Bool.and_eq_true, Bool.not_eq_true'] at hhole
        exact hhole
      · simp only [Bool.not_eq_true] at hhole
        simp only [hhole, Bool.false_eq_true, if_false] at hch
        exact absurd rfl hch
  · rw [if_neg hh]
    have hmask_eq : mask = maskClosed := by
      funext i j
      by_cases hm : mask i j = true
      · rw [hm, (hext i j hm)]
      · simp only [Bool.not_eq_true] at hm
        rw [hm]
        by_cases hc : maskClosed i j = true
        · exfalso
          apply hh
          rw [anyCell, decide_eq_true_iff]
          refine ⟨i, j, ?_⟩
          rw [maskHoles, hc, hm]
          rfl
        · simp only [Bool.not_eq_true] at hc
          rw [hc]
    exact ⟨hmask_eq.symm ▸ rfl, fun i j _ => rfl, fun i j hch => absurd rfl hch⟩

/-- Witness for C9 on a concrete 2×2 grid where the closing adds cell (0,1). -/
theorem slope_mask_backfill_frame_witness :
    anyCell 2 (fun i j => i.val == 0 && j.val == 0) = true ∧
    (∀ i j : Fin 2, (fun (i : Fin 2) (j : Fin 2) => i.val == 0 && j.val == 0) i j = true →
      (fun (i : Fin 2) (_ : Fin 2) => i.val == 0) i j = true) ∧
    ((maskBackfill 2 (fun _ _ => (0 : ℚ)) (fun i j => i.val == 0 && j.val == 0)
        (fun i _ => i.val == 0) (fun _ _ => 7)).2 = (fun i _ => i.val == 0) ∧
     (∀ i j, (fun (i : Fin 2) (j : Fin 2) => i.val == 0 && j.val == 0) i j = true →
       (maskBackfill 2 (fun _ _ => (0 : ℚ)) (fun i j => i.val == 0 && j.val == 0)
         (fun i _ => i.val == 0) (fun _ _ => 7)).1 i j = (fun _ _ => (0 : ℚ)) i j) ∧
     (∀ i j, (maskBackfill 2 (fun _ _ => (0 : ℚ)) (fun i j => i.val == 0 && j.val == 0)
         (fun i _ => i.val == 0) (fun _ _ => 7)).1 i j ≠ (fun _ _ => (0 : ℚ)) i j →
       (fun (i : Fin 2) (_ : Fin 2) => i.val == 0) i j = true ∧
       (fun (i : Fin 2) (j : Fin 2) => i.val == 0 && j.val == 0) i j = false)) :=
  ⟨by decide, by decide,
   slope_mask_backfill_frame 2 (fun _ _ => 0) (fun i j => i.val == 0 && j.val == 0)
     (fun i _ => i.val == 0) (fun _ _ => 7) (by decide) (by decide)⟩

/-- Helper: the splitting loop's sub-paths concatenate back to the input. -/
theorem splitLoop_flatten (maxGap : ℚ) (rest : List (ℚ × ℚ)) :
    ∀ (current : List (ℚ × ℚ)) (prev : ℚ × ℚ),
      (splitLoop maxGap current prev rest).flatten = current.reverse ++ rest := by
  induction rest with
  | nil =>
      intro c p
      simp [splitLoop]
  | cons q rest ih =>
      intro c p
      rw [splitLoop]
      by_cases h : gapWithin p q maxGap = true
      · rw [if_pos h, ih (q :: c) q]
        simp
      · rw [if_neg h]
        simp only [List.flatten_cons, ih [q] q]
        simp

/-- Helper: every sub-path built by the splitting loop is a chain of
within-gap steps, provided the accumulated prefix already is one and ends at
`prev`. -/
theorem splitLoop_chain (maxGap : ℚ) (rest : List (ℚ × ℚ)) :
    ∀ (current : List (ℚ × ℚ)) (prev : ℚ × ℚ),
      List.Chain' (fun p q => gapCondition p q maxGap) current.reverse →
      current.head? = some prev →
      ∀ l ∈ splitLoop maxGap current prev rest,
        List.Chain' (fun p q => gapCondition p q maxGap) l := by
  induction rest with
  | nil =>
      intro c p hc _ l hl
      rw [splitLoop] at hl
      rcases List.mem_singleton.mp hl with rfl
      exact hc
  | cons q rest ih =>
      intro c p hc hhead l hl
      rw [splitLoop] at hl
      by_cases h : gapWithin p q maxGap = true
      · rw [if_pos h] at hl
        refine ih (q :: c) q ?_ rfl l hl
        rw [List.reverse_cons, List.chain'_append]
        refine ⟨hc, List.chain'_singleton q, ?_⟩
        intro x hx y hy
        rw [List.getLast?_reverse, hhead] at hx
        rcases Option.mem_some_iff.mp hx with rfl
        rcases Option.mem_some_iff.mp hy with rfl
        exact of_decide_eq_true h
      · rw [if_neg h] at hl
        rcases List.mem_cons.mp hl with rfl | hl
        · exact hc
        · exact ih [q] q (List.chain'_singleton q) rfl l hl

/-- Claim C10: for every finite point sequence and positive `max_gap`,
`_split_path_on_jumps` returns sub-paths whose in-order concatenation is
exactly the input (each point kept once, order preserved), and inside each
sub-path every pair of consecutive points is within `max_gap` (stated as the
equivalent squared-distance inequality). -/
theorem split_path_on_jumps_spec (maxGap : ℚ) (pts : List (ℚ × ℚ))
    (hpos : 0 < maxGap) :
    (splitPathOnJumps maxGap pts).flatten = pts ∧
    ∀ l ∈ splitPathOnJumps maxGap pts,
      List.Chain' (fun p q => gapCondition p q maxGap) l := by
  have _ := hpos
  match pts with
  | [] =>
      refine ⟨rfl, ?_⟩
      intro l hl
      rw [splitPathOnJumps] at hl
      rcases List.mem_singleton.mp hl with rfl
      exact List.chain'_nil
  | [p] =>
      refine ⟨by simp [splitPathOnJumps], ?_⟩
      intro l hl
      rw [splitPathOnJumps] at hl
      rcases List.mem_singleton.mp hl with rfl
      exact List.chain'_singleton p
  | p :: q :: rest =>
      constructor
      · rw [splitPathOnJumps, splitLoop_flatten maxGap (q :: rest) [p] p]
        rfl
      · intro l hl
        rw [splitPathOnJumps] at hl
        exact splitLoop_chain maxGap (q :: rest) [p] p
          (List.chain'_singleton p) rfl l hl

/-- Witness for C10 on a concrete path with one oversized jump. -/
theorem split_path_on_jumps_witness :
    (0 : ℚ) < 2 ∧
    ((splitPathOnJumps 2 [(0, 0), (1, 0), (5, 0), (6, 0)]).flatten =
        [(0, 0), (1, 0), (5, 0), (6, 0)] ∧
     ∀ l ∈ splitPathOnJumps 2 [(0, 0), (1, 0), (5, 0), (6, 0)],
       List.Chain' (fun p q => gapCondition p q 2) l) ∧
    splitPathOnJumps 2 [(0, 0), (1, 0), (5, 0), (6, 0)] =
      [[(0, 0), (1, 0)], [(5, 0), (6, 0)]] :=
  ⟨by norm_num,
   split_path_on_jumps_spec 2 [(0, 0), (1, 0), (5, 0), (6, 0)] (by norm_num),
   by norm_num [splitPathOnJumps, splitLoop, gapWithin, gapCondition]⟩

end TopoConvert
